import Mathlib

/-!
Shallow embedding of the XBee API-frame engine (sparkfun/XBeeArduino):
frame checksum and encoding (`apiSendFrame`), frame reception and validation
(`apiReceiveApiFrame`), AT-command send (`apiSendAtCommand`), the correlated
AT-response wait loop (`apiSendAtCommandAndGetResponse`), the frame dispatcher
(`apiHandleFrame`) with the LongRange handlers, the LongRange data send
(`XBeeLRSendData`), and the timed exact-read loop (`readBytesWithTimeout`).
Machine integers are modelled as `Nat` with an explicit `% 256` wherever the C
code relies on `uint8` truncation; the UART byte stream and the millisecond
clock are modelled as explicit event lists.
-/

namespace XBeeArduino

/-- Session state carried in `struct XBee` (xbee.h): the rolling frame-id
counter (`uint8_t frameIdCntr`), the `txStatusReceived` flag and the last
`deliveryStatus`. -/
structure XBeeState where
  frameIdCntr : Nat
  txStatusReceived : Bool
  deliveryStatus : Nat
  deriving DecidableEq, Repr

/-- `XBeeInit` (xbee.c): sets the initial frame-id counter to 1 before calling
the subclass init. -/
def XBeeInit (st : XBeeState) : XBeeState :=
  { st with frameIdCntr := 1 }

/-- The frame-id counter step performed at the top of `apiSendFrame`:
`self->frameIdCntr++` on a `uint8_t`, then
`if (self->frameIdCntr == 0) self->frameIdCntr = 1`. -/
def nextFrameId (c : Nat) : Nat :=
  let c1 := (c + 1) % 256
  if c1 = 0 then 1 else c1

-- Frame-type codes (xbee_api_frames.h).
def XBEE_API_TYPE_AT_COMMAND : Nat := 0x08
def XBEE_API_TYPE_AT_RESPONSE : Nat := 0x88
def XBEE_API_TYPE_MODEM_STATUS : Nat := 0x8A
def XBEE_API_TYPE_TX_STATUS : Nat := 0x89
def XBEE_API_TYPE_LR_TX_REQUEST : Nat := 0x50
def XBEE_API_TYPE_LR_RX_PACKET : Nat := 0xD0
def XBEE_API_TYPE_LR_EXPLICIT_RX_PACKET : Nat := 0xD1
def XBEE_MAX_FRAME_DATA_SIZE : Nat := 256

-- Send return codes (xbee_api_frames.h).
def API_SEND_SUCCESS : Int := 0
def API_SEND_ERROR_INVALID_COMMAND : Int := -2
def API_SEND_ERROR_UART_FAILURE : Int := -3
def API_SEND_ERROR_FRAME_TOO_LARGE : Int := -4
def API_SEND_AT_CMD_ERROR : Int := -5
def API_SEND_AT_CMD_RESONSE_TIMEOUT : Int := -6

-- Send timeout used by the LongRange data send (xbee_lr.h).
def SEND_DATA_TIMEOUT_MS : Nat := 10000

/-- `calculateChecksum` (xbee_api_frames.c): sums the frame bytes from index 3
on in a `uint8_t` accumulator and subtracts the sum from 0xFF. -/
def calculateChecksum (frame : List Nat) : Nat :=
  255 - (frame.drop 3).foldl (fun s b => (s + b) % 256) 0

/-- The wire frame built by `apiSendFrame` (xbee_api_frames.c): start
delimiter 0x7E, big-endian length of (type byte + data), type byte, data,
checksum over everything from index 3. -/
def encodeApiFrame (frameType : Nat) (data : List Nat) : List Nat :=
  let pre := 0x7E :: ((data.length + 1) / 256 % 256) :: ((data.length + 1) % 256)
      :: (frameType % 256) :: data
  pre ++ [calculateChecksum pre]

/-- `apiSendFrame` (xbee_api_frames.c): increments the frame-id counter
(wrapping 255 → 1, skipping 0) and produces the wire bytes written to the
UART. The counter is stepped before anything is written. -/
def apiSendFrame (st : XBeeState) (frameType : Nat) (data : List Nat) :
    List Nat × XBeeState :=
  (encodeApiFrame frameType data, { st with frameIdCntr := nextFrameId st.frameIdCntr })

/-- `at_command_t` (xbee_at_cmds.h), together with the LR-specific command
values used by callers in this repository (AT_LC, AT_AM, AT_AD, AT_DR, AT_LR,
AT_J1, AT_J2, AT_D1, AT_D2, AT_XD, AT_XF, AT_PO, AT_CM, AT_LV) whose uses
appear in the sources even though the snapshot of the enum ends at `AT_PW`. -/
inductive AtCommand where
  | AT_ | AT_CN | AT_AP | AT_BD | AT_WR | AT_RE | AT_VR | AT_AC | AT_NR
  | AT_DD | AT_ID | AT_NI | AT_DL | AT_DH | AT_SH | AT_SL | AT_PL | AT_AI
  | AT_RP | AT_RN | AT_RR | AT_ND | AT_NO | AT_RO | AT_SM | AT_SO | AT_SP
  | AT_ST | AT_IS | AT_P0 | AT_P1 | AT_P2 | AT_P3 | AT_P4 | AT_P5 | AT_P6
  | AT_P7 | AT_P8 | AT_PR | AT_RI | AT_CT | AT_GT | AT_SB | AT_D7 | AT_D8
  | AT_D9 | AT_DA | AT_DB | AT_DC | AT_FT | AT_GU | AT_HS | AT_IT | AT_NJ
  | AT_JN | AT_JT | AT_JV | AT_LD | AT_AO
  | AT_CE | AT_SE | AT_DE_RF | AT_CI | AT_BH | AT_YS | AT_WR_RF
  | AT_IP | AT_MA | AT_OK | AT_RI_CELL | AT_SR | AT_TD | AT_TR | AT_TS
  | AT_UK | AT_VE | AT_VL
  | AT_DE | AT_AK | AT_AE | AT_NK | AT_JS | AT_FQ | AT_PW
  | AT_LC | AT_AM | AT_AD | AT_DR | AT_LR | AT_J1 | AT_J2 | AT_D1 | AT_D2
  | AT_XD | AT_XF | AT_PO | AT_CM | AT_LV
  deriving DecidableEq, Repr

/-- `atCommandToString` (xbee_at_cmds.c): the enum-to-mnemonic switch.
`none` models the `default: return NULL;` branch, which is reached by every
command value that has no case in the switch. -/
def atCommandToString : AtCommand → Option String
  | .AT_ => some "AT"
  | .AT_CN => some "CN"
  | .AT_AP => some "AP"
  | .AT_BD => some "BD"
  | .AT_WR => some "WR"
  | .AT_RE => some "RE"
  | .AT_VR => some "VR"
  | .AT_AC => some "AC"
  | .AT_NR => some "NR"
  | .AT_DD => some "DD"
  | .AT_ID => some "ID"
  | .AT_NI => some "NI"
  | .AT_DL => some "DL"
  | .AT_DH => some "DH"
  | .AT_SH => some "SH"
  | .AT_SL => some "SL"
  | .AT_PL => some "PL"
  | .AT_AI => some "AI"
  | .AT_RP => some "RP"
  | .AT_RN => some "RN"
  | .AT_RR => some "RR"
  | .AT_ND => some "ND"
  | .AT_NO => some "NO"
  | .AT_RO => some "RO"
  | .AT_SM => some "SM"
  | .AT_SO => some "SO"
  | .AT_SP => some "SP"
  | .AT_ST => some "ST"
  | .AT_IS => some "IS"
  | .AT_P0 => some "P0"
  | .AT_P1 => some "P1"
  | .AT_P2 => some "P2"
  | .AT_P3 => some "P3"
  | .AT_P4 => some "P4"
  | .AT_P5 => some "P5"
  | .AT_P6 => some "P6"
  | .AT_P7 => some "P7"
  | .AT_P8 => some "P8"
  | .AT_PR => some "PR"
  | .AT_RI => some "RI"
  | .AT_CT => some "CT"
  | .AT_GT => some "GT"
  | .AT_SB => some "SB"
  | .AT_D7 => some "D7"
  | .AT_D8 => some "D8"
  | .AT_D9 => some "D9"
  | .AT_DA => some "DA"
  | .AT_DB => some "DB"
  | .AT_DC => some "DC"
  | .AT_FT => some "FT"
  | .AT_GU => some "GU"
  | .AT_HS => some "HS"
  | .AT_IT => some "IT"
  | .AT_NJ => some "NJ"
  | .AT_JN => some "JN"
  | .AT_JT => some "JT"
  | .AT_JV => some "JV"
  | .AT_LD => some "LD"
  | .AT_AO => some "AO"
  | .AT_CE => some "CE"
  | .AT_SE => some "SE"
  | .AT_DE_RF => some "DE"
  | .AT_CI => some "CI"
  | .AT_BH => some "BH"
  | .AT_YS => some "YS"
  | .AT_WR_RF => some "WR"
  | .AT_IP => some "IP"
  | .AT_MA => some "MA"
  | .AT_OK => some "OK"
  | .AT_RI_CELL => some "RI"
  | .AT_SR => some "SR"
  | .AT_TD => some "TD"
  | .AT_TR => some "TR"
  | .AT_TS => some "TS"
  | .AT_UK => some "UK"
  | .AT_VE => some "VE"
  | .AT_VL => some "VL"
  | .AT_DE => some "DE"
  | .AT_AK => some "AK"
  | .AT_AE => some "AE"
  | .AT_NK => some "NK"
  | .AT_JS => some "JS"
  | .AT_FQ => some "FQ"
  | .AT_PW => some "PW"
  | _ => none

/-- Error outcomes of the AT-command send path (`API_SEND_ERROR_*` codes).
`nullDeref` marks the point where `apiSendAtCommand` reads `cmd_str[0]` and
`cmd_str[1]` from the NULL pointer returned by `atCommandToString` for an
unmapped command — in this embedding the guarded lookup fails there, before
the source's later `cmd_str == NULL` check can run. -/
inductive ApiSendError where
  | frameTooLarge
  | nullDeref
  | invalidCommand
  deriving DecidableEq, Repr

/-- Outcome of the AT-command send: wire bytes plus updated session, or one
of the `API_SEND_ERROR_*` outcomes. -/
inductive AtSendOutcome where
  | ok (wire : List Nat) (st : XBeeState)
  | error (e : ApiSendError)
  deriving DecidableEq, Repr

/-- Result of `apiSendAtCommand`: the send outcome together with the bytes of
the caller's parameter that were copied into the local `frame_data` buffer,
in order. -/
structure AtCmdSend where
  result : AtSendOutcome
  paramCopied : List Nat
  deriving DecidableEq, Repr

/-- `apiSendAtCommand` (xbee_api_frames.c): rejects parameters longer than
128 bytes before touching the frame buffer, then builds
`frameId :: mnemonic₀ :: mnemonic₁ :: parameter` and hands it to
`apiSendFrame` with the AT-command frame type. The mnemonic characters are
read before the source's NULL check, which is modelled by the `nullDeref`
error of the guarded lookup; the `invalidCommand` branch below it is
unreachable. -/
def apiSendAtCommand (st : XBeeState) (command : AtCommand) (parameter : List Nat) :
    AtCmdSend :=
  if parameter.length > 128 then
    { result := .error .frameTooLarge, paramCopied := [] }
  else
    match atCommandToString command with
    | none => { result := .error .nullDeref, paramCopied := [] }
    | some mn =>
        let c0 := (mn.toList.getD 0 'A').toNat
        let c1 := (mn.toList.getD 1 'A').toNat
        let frameData := st.frameIdCntr :: c0 :: c1 :: parameter
        let (wire, st1) := apiSendFrame st XBEE_API_TYPE_AT_COMMAND frameData
        { result := .ok wire st1, paramCopied := parameter }

/-- A received frame as populated by `apiReceiveApiFrame`
(`xbee_api_frame_t`): `ftype = data[0]`, `length` the on-wire length field,
`data` the `length` frame-data bytes. -/
structure ApiFrame where
  ftype : Nat
  length : Nat
  data : List Nat
  deriving DecidableEq, Repr

/-- `api_receive_status_t` error outcomes of `apiReceiveApiFrame`; the
timeout constructors correspond to running out of bytes while reading the
named field. -/
inductive ApiReceiveError where
  | timeoutStartDelimiter
  | invalidStartDelimiter
  | timeoutLength
  | frameTooLarge
  | timeoutData
  | timeoutChecksum
  | invalidChecksum
  deriving DecidableEq, Repr

/-- Outcome of one receive-one-frame attempt. -/
inductive ApiReceiveResult where
  | ok (frame : ApiFrame)
  | error (e : ApiReceiveError)
  deriving DecidableEq, Repr

/-- `apiReceiveApiFrame` (xbee_api_frames.c) on a byte stream: read the start
delimiter (must be 0x7E), two big-endian length bytes (bounded by
`XBEE_MAX_FRAME_DATA_SIZE`), `length` data bytes and the checksum byte; the
frame is valid iff the `uint8_t` sum of checksum and data bytes is 0xFF. -/
def apiReceiveApiFrame (bytes : List Nat) : ApiReceiveResult :=
  match bytes with
  | [] => .error .timeoutStartDelimiter
  | startDelimiter :: rest =>
    if startDelimiter ≠ 0x7E then .error .invalidStartDelimiter
    else
      match rest with
      | b0 :: b1 :: rest2 =>
        let length := b0 * 256 + b1
        if length > XBEE_MAX_FRAME_DATA_SIZE then .error .frameTooLarge
        else if rest2.length < length then .error .timeoutData
        else
          let data := rest2.take length
          match rest2.drop length with
          | [] => .error .timeoutChecksum
          | checksum :: _ =>
            if data.foldl (fun s b => (s + b) % 256) (checksum % 256) = 0xFF then
              .ok { ftype := data.headD 0, length := length, data := data }
            else .error .invalidChecksum
      | _ => .error .timeoutLength

/-- `XBeeLRPacket_t` (xbee_lr.h), as constructed by the LongRange dispatch
handlers (unset fields stay zero-initialized, matching `= {0}`). -/
structure LRPacket where
  port : Nat := 0
  payload : List Nat := []
  ack : Nat := 0
  status : Nat := 0
  frameId : Nat := 0
  rssi : Nat := 0
  snr : Nat := 0
  dr : Nat := 0
  slot : Nat := 0
  counter : Nat := 0
  channel : Nat := 0
  power : Nat := 0
  deriving DecidableEq, Repr

/-- Observable effects of frame dispatch: the frames handed to
`apiHandleFrame` and the packets passed to the host's `OnSendCallback` and
`OnReceiveCallback`. -/
structure DispatchLog where
  dispatched : List ApiFrame := []
  onSendCalls : List LRPacket := []
  onReceiveCalls : List LRPacket := []
  deriving DecidableEq, Repr

/-- `XBeeLRHandleTransmitStatus` (xbee_lr.c): on a transmit-status frame it
records `deliveryStatus = data[2]`, sets `txStatusReceived`, and invokes the
on-send callback with a packet carrying `frameId = data[1]` and
`status = data[2]`. (The LR explicit transmit-status type, whose extra-field
branch is guarded by it, is not declared in these sources; the dispatcher
only routes type 0x89 here.) -/
def XBeeLRHandleTransmitStatus (st : XBeeState) (log : DispatchLog)
    (frame : ApiFrame) : XBeeState × DispatchLog :=
  if frame.ftype ≠ XBEE_API_TYPE_TX_STATUS then (st, log)
  else
    let pkt : LRPacket :=
      { frameId := frame.data.getD 1 0, status := frame.data.getD 2 0 }
    ({ st with deliveryStatus := frame.data.getD 2 0, txStatusReceived := true },
     { log with onSendCalls := log.onSendCalls ++ [pkt] })

/-- `XBeeLRHandleRxPacket` (xbee_lr.c): parses an implicit (0xD0) or explicit
(0xD1) receive-packet frame into an `LRPacket` and invokes the on-receive
callback. -/
def XBeeLRHandleRxPacket (st : XBeeState) (log : DispatchLog)
    (frame : ApiFrame) : XBeeState × DispatchLog :=
  if frame.ftype ≠ XBEE_API_TYPE_LR_RX_PACKET ∧
      frame.ftype ≠ XBEE_API_TYPE_LR_EXPLICIT_RX_PACKET then (st, log)
  else
    let pkt : LRPacket :=
      if frame.ftype = XBEE_API_TYPE_LR_EXPLICIT_RX_PACKET then
        { port := frame.data.getD 1 0, rssi := frame.data.getD 2 0,
          snr := frame.data.getD 3 0, dr := frame.data.getD 4 0 % 16,
          slot := frame.data.getD 4 0 / 16,
          counter := frame.data.getD 5 0 * 2 ^ 24 + frame.data.getD 6 0 * 2 ^ 16 +
            frame.data.getD 7 0 * 2 ^ 8 + frame.data.getD 8 0,
          payload := (frame.data.drop 10).take (frame.length - 10) }
      else
        { port := frame.data.getD 1 0,
          payload := (frame.data.drop 2).take (frame.length - 2) }
    (st, { log with onReceiveCalls := log.onReceiveCalls ++ [pkt] })

/-- `apiHandleFrame` (xbee_api_frames.c): routes a received frame by type to
the registered handler — AT response and modem status are print-only,
transmit status and receive packets go to the LongRange vtable handlers, and
unknown types are only logged. Every call is recorded in `log.dispatched`. -/
def apiHandleFrame (st : XBeeState) (log : DispatchLog) (frame : ApiFrame) :
    XBeeState × DispatchLog :=
  let log1 := { log with dispatched := log.dispatched ++ [frame] }
  if frame.ftype = XBEE_API_TYPE_AT_RESPONSE then (st, log1)
  else if frame.ftype = XBEE_API_TYPE_MODEM_STATUS then (st, log1)
  else if frame.ftype = XBEE_API_TYPE_TX_STATUS then
    XBeeLRHandleTransmitStatus st log1 frame
  else if frame.ftype = XBEE_API_TYPE_LR_RX_PACKET ∨
      frame.ftype = XBEE_API_TYPE_LR_EXPLICIT_RX_PACKET then
    XBeeLRHandleRxPacket st log1 frame
  else (st, log1)

/-- One iteration of a polling loop against the environment: the outcome of
this iteration's `apiReceiveApiFrame` call (`some` on success) and the value
of the millisecond clock read at this iteration's deadline check. -/
structure PollEvent where
  recv : Option ApiFrame
  now : Nat
  deriving DecidableEq, Repr

/-- Result of the AT-response wait loop of `apiSendAtCommandAndGetResponse`:
the returned code (`none` when the supplied event list is exhausted with the
loop still pending), the bytes copied into the caller's response buffer, the
value stored through `responseLength`, the session and dispatch log, and the
number of events consumed. -/
structure WaitResult where
  code : Option Int
  copied : Option (List Nat)
  respLen : Option Nat
  st : XBeeState
  log : DispatchLog
  consumed : Nat
  deriving DecidableEq, Repr

/-- The wait loop of `apiSendAtCommandAndGetResponse` (xbee_api_frames.c):
each iteration attempts to receive one frame; an AT-response frame ends the
loop (success when its status byte `data[4]` is zero, copying the trailing
data when a response buffer was supplied and the length is nonzero, and
`API_SEND_AT_CMD_ERROR` otherwise); any other frame is handed to
`apiHandleFrame`; then the deadline is checked against the clock. -/
def atResponseWaitLoop (startTime timeoutMs : Nat) (bufProvided : Bool)
    (st : XBeeState) (log : DispatchLog) : List PollEvent → WaitResult
  | [] => { code := none, copied := none, respLen := none, st := st, log := log,
            consumed := 0 }
  | e :: rest =>
    match e.recv with
    | some frame =>
      if frame.ftype = XBEE_API_TYPE_AT_RESPONSE then
        let rl := (((frame.length : Int) - 5).emod 256).toNat
        if frame.data.getD 4 0 = 0 then
          let copied := if bufProvided ∧ rl ≠ 0 then
              some ((frame.data.drop 5).take rl) else none
          { code := some API_SEND_SUCCESS, copied := copied, respLen := some rl,
            st := st, log := log, consumed := 1 }
        else
          { code := some API_SEND_AT_CMD_ERROR, copied := none,
            respLen := some rl, st := st, log := log, consumed := 1 }
      else
        let (st1, log1) := apiHandleFrame st log frame
        if e.now - startTime ≥ timeoutMs then
          { code := some API_SEND_AT_CMD_RESONSE_TIMEOUT, copied := none,
            respLen := none, st := st1, log := log1, consumed := 1 }
        else
          let r := atResponseWaitLoop startTime timeoutMs bufProvided st1 log1 rest
          { r with consumed := r.consumed + 1 }
    | none =>
      if e.now - startTime ≥ timeoutMs then
        { code := some API_SEND_AT_CMD_RESONSE_TIMEOUT, copied := none,
          respLen := none, st := st, log := log, consumed := 1 }
      else
        let r := atResponseWaitLoop startTime timeoutMs bufProvided st log rest
        { r with consumed := r.consumed + 1 }

/-- `apiSendAtCommandAndGetResponse` (xbee_api_frames.c): fires the AT
command with `apiSendAtCommand` — discarding its return value, exactly as the
source does — and then runs the AT-response wait loop. -/
def apiSendAtCommandAndGetResponse (st : XBeeState) (command : AtCommand)
    (parameter : List Nat) (bufProvided : Bool) (startTime timeoutMs : Nat)
    (log : DispatchLog) (events : List PollEvent) : WaitResult :=
  let fire := apiSendAtCommand st command parameter
  let stAfterFire := match fire.result with
    | .ok _ st1 => st1
    | .error _ => st
  atResponseWaitLoop startTime timeoutMs bufProvided stAfterFire log events

/-- One iteration of the `XBeeLRSendData` wait loop: the clock value read by
the `while` condition and the outcome of this iteration's
`apiReceiveApiFrame` call inside `XBeeLRProcess`. -/
structure LREvent where
  now : Nat
  recv : Option ApiFrame
  deriving DecidableEq, Repr

/-- Result of the LongRange data send: the returned delivery status (`none`
when the event list is exhausted while still waiting), the session and the
dispatch log. -/
structure LRSendResult where
  status : Option Nat
  st : XBeeState
  log : DispatchLog
  deriving DecidableEq, Repr

/-- The wait loop of `XBeeLRSendData` (xbee_lr.c): while the clock reads less
than `SEND_DATA_TIMEOUT_MS` past `startTime`, pump one frame through
`XBeeLRProcess` (receive plus `apiHandleFrame`), then return
`deliveryStatus` once `txStatusReceived` is set; on deadline expiry return
0xFF. -/
def lrSendWait (startTime : Nat) (st : XBeeState) (log : DispatchLog) :
    List LREvent → LRSendResult
  | [] => { status := none, st := st, log := log }
  | e :: rest =>
    if e.now - startTime ≥ SEND_DATA_TIMEOUT_MS then
      { status := some 0xFF, st := st, log := log }
    else
      let (st1, log1) := match e.recv with
        | some frame => apiHandleFrame st log frame
        | none => (st, log)
      if st1.txStatusReceived then
        { status := some st1.deliveryStatus, st := st1, log := log1 }
      else lrSendWait startTime st1 log1 rest

/-- `XBeeLRSendData` (xbee_lr.c): builds
`frameId :: port :: (ack & 1) :: payload`, sends it as an LR transmit-request
frame, returns 0 if the UART write fails, otherwise clears
`txStatusReceived` and runs the transmit-status wait loop. -/
def XBeeLRSendData (st : XBeeState) (pkt : LRPacket) (uartOk : Bool)
    (startTime : Nat) (log : DispatchLog) (events : List LREvent) : LRSendResult :=
  let frameData := st.frameIdCntr :: pkt.port :: (pkt.ack % 2) :: pkt.payload
  let (_wire, st1) := apiSendFrame st XBEE_API_TYPE_LR_TX_REQUEST frameData
  if uartOk then
    let st2 := { st1 with txStatusReceived := false }
    lrSendWait startTime st2 log events
  else { status := some 0, st := st1, log := log }

/-- One iteration of `readBytesWithTimeout`: the value returned by
`PortUartRead` and the clock value read at this iteration's deadline check. -/
structure ReadEvent where
  readRet : Int
  now : Nat
  deriving DecidableEq, Repr

/-- Outcomes of the timed exact-read loop. `uartFailure` mirrors
`API_RECEIVE_ERROR_UART_FAILURE`, the code the function's documentation
promises for a failed UART read. -/
inductive ReadOutcome where
  | success
  | timeoutData
  | uartFailure
  | pending
  deriving DecidableEq, Repr

/-- `readBytesWithTimeout` (xbee_api_frames.c): while fewer than `length`
bytes have accumulated, call the transport read; only positive return values
add to the total (negative failure returns are silently ignored); then the
deadline is checked, returning `API_RECEIVE_ERROR_TIMEOUT_DATA` once
`timeoutMs` has elapsed. `pending` marks exhaustion of the event list. -/
def readBytesWithTimeout (length timeoutMs startTime : Nat) :
    List ReadEvent → Nat → ReadOutcome
  | events, total =>
    if total ≥ length then .success
    else
      match events with
      | [] => .pending
      | e :: rest =>
        let total1 := if e.readRet > 0 then total + e.readRet.toNat else total
        if e.now - startTime ≥ timeoutMs then .timeoutData
        else readBytesWithTimeout length timeoutMs startTime rest total1

/-- A poll event that cannot end the AT-response wait: its receive attempt
did not produce an AT-response frame, and its clock reading is still inside
the deadline. -/
def nonTerminatingB (startTime timeoutMs : Nat) (e : PollEvent) : Bool :=
  (match e.recv with
   | some f => f.ftype ≠ XBEE_API_TYPE_AT_RESPONSE
   | none => true) &&
  (e.now - startTime < timeoutMs)

/-- Dispatch every successfully received frame of an event list through
`apiHandleFrame`, in order. -/
def pumpFrames (st : XBeeState) (log : DispatchLog) (events : List PollEvent) :
    XBeeState × DispatchLog :=
  events.foldl
    (fun p e => match e.recv with
      | some f => apiHandleFrame p.1 p.2 f
      | none => p)
    (st, log)

/-- An `XBeeLRSendData` wait iteration that cannot end the wait: its clock
reading is inside the send deadline and its receive attempt did not produce a
transmit-status frame. -/
def lrQuiet (startTime : Nat) (e : LREvent) : Bool :=
  (e.now - startTime < SEND_DATA_TIMEOUT_MS) &&
  (match e.recv with
   | some g => g.ftype ≠ XBEE_API_TYPE_TX_STATUS
   | none => true)

/-- Dispatch every successfully received frame of an `LREvent` list through
`apiHandleFrame`, in order. -/
def lrPump (st : XBeeState) (log : DispatchLog) (events : List LREvent) :
    XBeeState × DispatchLog :=
  events.foldl
    (fun p e => match e.recv with
      | some f => apiHandleFrame p.1 p.2 f
      | none => p)
    (st, log)

/-! ## Helper lemmas -/

lemma foldl_add_mod (l : List Nat) : ∀ a : Nat, a < 256 →
    l.foldl (fun s b => (s + b) % 256) a = (a + l.sum) % 256 := by
  induction l with
  | nil => intro a ha; simpa using (Nat.mod_eq_of_lt ha).symm
  | cons b t ih =>
    intro a ha
    have h1 : (a + b) % 256 < 256 := Nat.mod_lt _ (by norm_num)
    calc (b :: t).foldl (fun s b => (s + b) % 256) a
        = t.foldl (fun s b => (s + b) % 256) ((a + b) % 256) := rfl
      _ = ((a + b) % 256 + t.sum) % 256 := ih _ h1
      _ = (a + b + t.sum) % 256 := by rw [Nat.mod_add_mod]
      _ = (a + (b :: t).sum) % 256 := by simp [Nat.add_assoc]

lemma nextFrameId_iterate (n : Nat) : nextFrameId^[n] 1 = n % 255 + 1 := by
  induction n with
  | zero => simp
  | succ n ih =>
    rw [Function.iterate_succ_apply', ih]
    simp only [nextFrameId]
    split <;> omega

lemma foldl_sends_frameId (sends : List (Nat × List Nat)) : ∀ st : XBeeState,
    (sends.foldl (fun s td => (apiSendFrame s td.1 td.2).2) st).frameIdCntr
      = nextFrameId^[sends.length] st.frameIdCntr := by
  induction sends with
  | nil => intro st; rfl
  | cons td sends ih =>
    intro st
    rw [List.foldl_cons, ih, List.length_cons, Function.iterate_succ_apply]
    rfl

lemma encodeApiFrame_eq (t : Nat) (p : List Nat) (ht : t ≤ 255)
    (hlen : p.length ≤ 254) :
    encodeApiFrame t p =
      0x7E :: 0 :: (p.length + 1) :: t :: (p ++ [255 - (t + p.sum) % 256]) := by
  have hlt : p.length + 1 < 256 := by omega
  have h1 : (p.length + 1) / 256 % 256 = 0 := by rw [Nat.div_eq_of_lt hlt]
  have h2 : (p.length + 1) % 256 = p.length + 1 := Nat.mod_eq_of_lt hlt
  have h3 : t % 256 = t := Nat.mod_eq_of_lt (by omega)
  have h4 : (t :: p).foldl (fun s b => (s + b) % 256) 0 = (t + p.sum) % 256 := by
    simpa using foldl_add_mod (t :: p) 0 (by norm_num)
  simp [encodeApiFrame, calculateChecksum, h1, h2, h3, h4]

lemma apiHandleFrame_dispatched (st : XBeeState) (log : DispatchLog) (f : ApiFrame) :
    (apiHandleFrame st log f).2.dispatched = log.dispatched ++ [f] := by
  simp only [apiHandleFrame, XBeeLRHandleTransmitStatus, XBeeLRHandleRxPacket]
  split_ifs <;> rfl

lemma apiHandleFrame_txStatus (st : XBeeState) (log : DispatchLog) (f : ApiFrame)
    (h : f.ftype = XBEE_API_TYPE_TX_STATUS) :
    apiHandleFrame st log f =
      ({ st with deliveryStatus := f.data.getD 2 0, txStatusReceived := true },
       { log with dispatched := log.dispatched ++ [f],
                  onSendCalls := log.onSendCalls ++
                    [{ frameId := f.data.getD 1 0, status := f.data.getD 2 0 }] }) := by
  simp [apiHandleFrame, XBeeLRHandleTransmitStatus, h, XBEE_API_TYPE_TX_STATUS,
    XBEE_API_TYPE_AT_RESPONSE, XBEE_API_TYPE_MODEM_STATUS]

lemma apiHandleFrame_nonTxStatus (st : XBeeState) (log : DispatchLog) (f : ApiFrame)
    (h : f.ftype ≠ XBEE_API_TYPE_TX_STATUS) :
    (apiHandleFrame st log f).1 = st ∧
    (apiHandleFrame st log f).2.onSendCalls = log.onSendCalls := by
  simp only [apiHandleFrame, XBeeLRHandleTransmitStatus, XBeeLRHandleRxPacket]
  split_ifs with h1 h2 h3 h4 <;> first
    | exact ⟨rfl, rfl⟩
    | exact absurd h3 (by simpa using h)

lemma pumpFrames_nil (st : XBeeState) (log : DispatchLog) :
    pumpFrames st log [] = (st, log) := rfl

lemma pumpFrames_cons (st : XBeeState) (log : DispatchLog) (e : PollEvent)
    (pre : List PollEvent) :
    pumpFrames st log (e :: pre) =
      (match e.recv with
        | some f => pumpFrames (apiHandleFrame st log f).1 (apiHandleFrame st log f).2 pre
        | none => pumpFrames st log pre) := by
  cases he : e.recv <;> simp [pumpFrames, List.foldl_cons, he]

lemma pumpFrames_dispatched (pre : List PollEvent) : ∀ (st : XBeeState) (log : DispatchLog),
    (pumpFrames st log pre).2.dispatched =
      log.dispatched ++ pre.filterMap PollEvent.recv := by
  induction pre with
  | nil => intro st log; simp [pumpFrames]
  | cons e pre ih =>
    intro st log
    rw [pumpFrames_cons]
    cases he : e.recv with
    | none => simp [he, ih, List.filterMap_cons]
    | some f =>
      simp only [he, ih, List.filterMap_cons]
      rw [apiHandleFrame_dispatched]
      simp

lemma atWait_append (s tmo : Nat) (buf : Bool) (pre : List PollEvent)
    (h : ∀ e ∈ pre, nonTerminatingB s tmo e = true) :
    ∀ (rest : List PollEvent) (st : XBeeState) (log : DispatchLog),
      atResponseWaitLoop s tmo buf st log (pre ++ rest) =
        { atResponseWaitLoop s tmo buf (pumpFrames st log pre).1
            (pumpFrames st log pre).2 rest with
          consumed := pre.length +
            (atResponseWaitLoop s tmo buf (pumpFrames st log pre).1
              (pumpFrames st log pre).2 rest).consumed } := by
  induction pre with
  | nil =>
    intro rest st log
    simp [pumpFrames]
  | cons e pre ih =>
    intro rest st log
    have hne := h e (List.mem_cons_self _ _)
    have hpre : ∀ e' ∈ pre, nonTerminatingB s tmo e' = true :=
      fun e' he' => h e' (List.mem_cons_of_mem _ he')
    have htime : e.now - s < tmo := by
      simp only [nonTerminatingB, Bool.and_eq_true] at hne
      simpa [decide_eq_true_eq] using hne.2
    rw [pumpFrames_cons]
    cases he : e.recv with
    | none =>
      simp only [List.cons_append, atResponseWaitLoop, he,
        if_neg (by omega : ¬ e.now - s ≥ tmo), List.append_eq]
      rw [ih hpre rest st log]
      simp [Nat.add_assoc, Nat.add_comm 1]
    | some f =>
      have hf : f.ftype ≠ XBEE_API_TYPE_AT_RESPONSE := by
        simp only [nonTerminatingB, he, Bool.and_eq_true] at hne
        simpa [decide_eq_true_eq] using hne.1
      simp only [List.cons_append, atResponseWaitLoop, he, if_neg hf,
        if_neg (by omega : ¬ e.now - s ≥ tmo), List.append_eq]
      rw [ih hpre rest (apiHandleFrame st log f).1 (apiHandleFrame st log f).2]
      simp [Nat.add_assoc, Nat.add_comm 1]

lemma lrPump_cons (st : XBeeState) (log : DispatchLog) (e : LREvent)
    (pre : List LREvent) :
    lrPump st log (e :: pre) =
      (match e.recv with
        | some f => lrPump (apiHandleFrame st log f).1 (apiHandleFrame st log f).2 pre
        | none => lrPump st log pre) := by
  cases he : e.recv <;> simp [lrPump, List.foldl_cons, he]

lemma lrWait_skip (s : Nat) (pre : List LREvent)
    (h : ∀ e ∈ pre, lrQuiet s e = true) :
    ∀ (rest : List LREvent) (st : XBeeState) (log : DispatchLog),
      st.txStatusReceived = false →
      lrSendWait s st log (pre ++ rest) = lrSendWait s st (lrPump st log pre).2 rest ∧
      (lrPump st log pre).1 = st ∧
      (lrPump st log pre).2.onSendCalls = log.onSendCalls := by
  induction pre with
  | nil =>
    intro rest st log hflag
    exact ⟨rfl, rfl, rfl⟩
  | cons e pre ih =>
    intro rest st log hflag
    have hne := h e (List.mem_cons_self _ _)
    have hpre : ∀ e' ∈ pre, lrQuiet s e' = true :=
      fun e' he' => h e' (List.mem_cons_of_mem _ he')
    have htime : e.now - s < SEND_DATA_TIMEOUT_MS := by
      simp only [lrQuiet, Bool.and_eq_true] at hne
      simpa [decide_eq_true_eq] using hne.1
    rw [lrPump_cons]
    cases he : e.recv with
    | none =>
      simp only [List.cons_append, lrSendWait, he,
        if_neg (by omega : ¬ e.now - s ≥ SEND_DATA_TIMEOUT_MS), hflag]
      simpa using ih hpre rest st log hflag
    | some f =>
      have hf : f.ftype ≠ XBEE_API_TYPE_TX_STATUS := by
        simp only [lrQuiet, he, Bool.and_eq_true] at hne
        simpa [decide_eq_true_eq] using hne.2
      obtain ⟨hst, hsend⟩ := apiHandleFrame_nonTxStatus st log f hf
      simp only [List.cons_append, lrSendWait, he,
        if_neg (by omega : ¬ e.now - s ≥ SEND_DATA_TIMEOUT_MS)]
      rw [hst, hflag]
      simp only [Bool.false_eq_true, if_false]
      have := ih hpre rest st (apiHandleFrame st log f).2 hflag
      exact ⟨this.1, this.2.1, by rw [this.2.2, hsend]⟩

/-! ## Claim theorems -/

/-- C2: for every frame type byte in 0..255 and every payload of length
0..254 whose bytes are in 0..255, the frame built by `apiSendFrame`'s encoder
passes `apiReceiveApiFrame`'s checksum validation and decodes back to the
same type and payload (the frame data is the type byte followed by the
payload). -/
theorem c2_encode_decode_roundtrip (t : Nat) (p : List Nat) (ht : t ≤ 255)
    (hlen : p.length ≤ 254) (hbytes : ∀ b ∈ p, b ≤ 255) :
    apiReceiveApiFrame (encodeApiFrame t p) =
      .ok { ftype := t, length := p.length + 1, data := t :: p } := by
  clear hbytes
  rw [encodeApiFrame_eq t p ht hlen]
  set ck := 255 - (t + p.sum) % 256 with hck
  have hcklt : ck < 256 := by omega
  have hmod : ck % 256 = ck := Nat.mod_eq_of_lt hcklt
  have hfold : (t :: p).foldl (fun s b => (s + b) % 256) (ck % 256) = 255 := by
    rw [hmod]
    rw [foldl_add_mod (t :: p) ck hcklt]
    have hq := Nat.div_add_mod (t + p.sum) 256
    have : ck + (t :: p).sum = 255 + 256 * ((t + p.sum) / 256) := by
      simp only [List.sum_cons]
      omega
    rw [this, Nat.add_mul_mod_self_left]
  simp only [apiReceiveApiFrame]
  norm_num
  have hfold2 : List.foldl (fun s b => (s + b) % 256) ((ck + t) % 256) p = 255 := by
    have h := hfold
    rw [List.foldl_cons] at h
    rwa [Nat.mod_add_mod] at h
  rw [if_neg (by simp only [XBEE_MAX_FRAME_DATA_SIZE]; omega), if_pos hfold2]

theorem c2_encode_decode_roundtrip_witness :
    apiReceiveApiFrame (encodeApiFrame 0x88 [1, 86, 82, 0]) =
      .ok { ftype := 0x88, length := 5, data := [0x88, 1, 86, 82, 0] } :=
  c2_encode_decode_roundtrip 0x88 [1, 86, 82, 0] (by decide) (by decide) (by decide)

/-- C3: starting from a session initialized by `XBeeInit` (frame-id counter
1), after any sequence of `n` outbound `apiSendFrame` calls the counter
equals `((1 + n - 1) mod 255) + 1`, and in particular it is never 0. -/
theorem c3_frameId_counter (sends : List (Nat × List Nat)) (st : XBeeState) :
    (sends.foldl (fun s td => (apiSendFrame s td.1 td.2).2) (XBeeInit st)).frameIdCntr
      = (1 + sends.length - 1) % 255 + 1 ∧
    (sends.foldl (fun s td => (apiSendFrame s td.1 td.2).2) (XBeeInit st)).frameIdCntr
      ≠ 0 := by
  have h := foldl_sends_frameId sends (XBeeInit st)
  have h2 : (XBeeInit st).frameIdCntr = 1 := rfl
  rw [h2, nextFrameId_iterate] at h
  rw [h]
  omega

/-- C7 (code bug): the source's documentation promises
`API_RECEIVE_ERROR_UART_FAILURE` when the UART read fails, but the loop only
accumulates positive read returns and can only exit with success or
`API_RECEIVE_ERROR_TIMEOUT_DATA`. Concretely, an execution in which every
transport read returns -1 ends in the timeout outcome, and no execution at
all produces the UART-failure outcome. -/
theorem c7_read_timeout_not_transport_error :
    readBytesWithTimeout 1 100 0
        [{ readRet := -1, now := 0 }, { readRet := -1, now := 100 }] 0
      = .timeoutData ∧
    ∀ (length timeoutMs startTime : Nat) (events : List ReadEvent) (total : Nat),
      readBytesWithTimeout length timeoutMs startTime events total ≠ .uartFailure := by
  refine ⟨by decide, ?_⟩
  intro length timeoutMs startTime events
  induction events with
  | nil =>
    intro total
    unfold readBytesWithTimeout
    split <;> simp
  | cons e rest ih =>
    intro total
    unfold readBytesWithTimeout
    split
    · simp
    · dsimp only
      split
      · simp
      · exact ih _

/-- C8: with the session's frame-id counter at 1, sending the AT command
`AT_WR` ("WR") with no parameter produces exactly the wire bytes
`7E 00 04 08 01 57 52 4D` — frame data `[0x08, 0x01, 0x57, 0x52]` behind
length bytes `[0x00, 0x04]` and checksum `0x4D`. -/
theorem c8_wr_wire_bytes :
    apiSendAtCommand { frameIdCntr := 1, txStatusReceived := false, deliveryStatus := 0 }
        .AT_WR [] =
      { result := .ok [0x7E, 0x00, 0x04, 0x08, 0x01, 0x57, 0x52, 0x4D]
          { frameIdCntr := 2, txStatusReceived := false, deliveryStatus := 0 },
        paramCopied := [] } ∧
    calculateChecksum [0x7E, 0x00, 0x04, 0x08, 0x01, 0x57, 0x52] = 0x4D := by
  decide

/-- C9: for every command the mnemonic table maps to the null pointer, the
mnemonic characters are read before the source's null check, so the guarded
lookup fails with `nullDeref` first and `API_SEND_ERROR_INVALID_COMMAND` is
unreachable on every input. -/
theorem c9_null_read_before_check :
    (∀ (command : AtCommand) (parameter : List Nat) (st : XBeeState),
      atCommandToString command = none → parameter.length ≤ 128 →
      (apiSendAtCommand st command parameter).result = .error .nullDeref) ∧
    (∀ (command : AtCommand) (parameter : List Nat) (st : XBeeState),
      (apiSendAtCommand st command parameter).result ≠ .error .invalidCommand) := by
  constructor
  · intro command parameter st hnone hlen
    have hn : ¬ parameter.length > 128 := by omega
    simp [apiSendAtCommand, hn, hnone]
  · intro command parameter st
    by_cases hlen : parameter.length > 128
    · simp [apiSendAtCommand, hlen]
    · cases h : atCommandToString command with
      | none => simp [apiSendAtCommand, hlen, h]
      | some mn => simp [apiSendAtCommand, hlen, h]

theorem c9_null_read_before_check_witness :
    atCommandToString .AT_LC = none ∧
    (apiSendAtCommand { frameIdCntr := 1, txStatusReceived := false, deliveryStatus := 0 }
        .AT_LC []).result = .error .nullDeref :=
  ⟨by decide,
   c9_null_read_before_check.1 .AT_LC []
     { frameIdCntr := 1, txStatusReceived := false, deliveryStatus := 0 }
     (by decide) (by decide)⟩

/-- C4: a parameter of exactly 128 bytes (the maximum the source's bound
check allows) is accepted by the AT-command encoder with the full parameter
copied, a 129-byte parameter is rejected with `FrameTooLarge`, and the
rejection leaves the frame buffer untouched — no parameter byte is copied. -/
theorem c4_parameter_boundary :
    (∀ (st : XBeeState) (command : AtCommand) (mn : String) (parameter : List Nat),
      atCommandToString command = some mn → parameter.length = 128 →
      (∃ wire st1, (apiSendAtCommand st command parameter).result = .ok wire st1) ∧
      (apiSendAtCommand st command parameter).paramCopied = parameter) ∧
    (∀ (st : XBeeState) (command : AtCommand) (parameter : List Nat),
      parameter.length = 129 →
      apiSendAtCommand st command parameter =
        { result := .error .frameTooLarge, paramCopied := [] }) := by
  constructor
  · intro st command mn parameter hmn hlen
    have hn : ¬ parameter.length > 128 := by omega
    have hres : (apiSendAtCommand st command parameter).result =
        .ok (encodeApiFrame XBEE_API_TYPE_AT_COMMAND
              (st.frameIdCntr :: (mn.toList.getD 0 'A').toNat ::
                (mn.toList.getD 1 'A').toNat :: parameter))
          { st with frameIdCntr := nextFrameId st.frameIdCntr } := by
      simp [apiSendAtCommand, hn, hmn, apiSendFrame]
    exact ⟨⟨_, _, hres⟩, by simp [apiSendAtCommand, hn, hmn]⟩
  · intro st command parameter hlen
    have hp : parameter.length > 128 := by omega
    simp [apiSendAtCommand, hp]

theorem c4_parameter_boundary_witness :
    ((∃ wire st1,
        (apiSendAtCommand { frameIdCntr := 1, txStatusReceived := false, deliveryStatus := 0 }
            .AT_WR (List.replicate 128 7)).result = .ok wire st1) ∧
      (apiSendAtCommand { frameIdCntr := 1, txStatusReceived := false, deliveryStatus := 0 }
          .AT_WR (List.replicate 128 7)).paramCopied = List.replicate 128 7) ∧
    apiSendAtCommand { frameIdCntr := 1, txStatusReceived := false, deliveryStatus := 0 }
        .AT_WR (List.replicate 129 7) =
      { result := .error .frameTooLarge, paramCopied := [] } :=
  ⟨c4_parameter_boundary.1 _ .AT_WR "WR" _ (by decide) (by simp),
   c4_parameter_boundary.2 _ .AT_WR _ (by simp)⟩

/-- C5: after a successful frame write, `XBeeLRSendData` clears
`txStatusReceived` and pumps received frames through the dispatcher until the
flag is set or the 10000 ms send deadline passes. When a transmit-status
frame arrives during the wait, dispatch stores its status byte `data[2]` as
the session's delivery status, sets the flag, and invokes the on-send
callback with a packet carrying `frameId = data[1]` and `status = data[2]`;
the send then returns that delivery status. When the clock passes the
deadline first, the send returns the distinguished failure value 0xFF. -/
theorem c5_lr_send_waits_for_tx_status :
    (∀ (st : XBeeState) (pkt : LRPacket) (s : Nat) (log : DispatchLog)
        (pre post : List LREvent) (f : ApiFrame) (tnow : Nat),
      (∀ e ∈ pre, lrQuiet s e = true) →
      f.ftype = XBEE_API_TYPE_TX_STATUS → tnow - s < SEND_DATA_TIMEOUT_MS →
      (XBeeLRSendData st pkt true s log
          (pre ++ { now := tnow, recv := some f } :: post)).status
          = some (f.data.getD 2 0) ∧
      (XBeeLRSendData st pkt true s log
          (pre ++ { now := tnow, recv := some f } :: post)).st.txStatusReceived
          = true ∧
      (XBeeLRSendData st pkt true s log
          (pre ++ { now := tnow, recv := some f } :: post)).st.deliveryStatus
          = f.data.getD 2 0 ∧
      (XBeeLRSendData st pkt true s log
          (pre ++ { now := tnow, recv := some f } :: post)).log.onSendCalls
          = log.onSendCalls ++
            [{ frameId := f.data.getD 1 0, status := f.data.getD 2 0 }]) ∧
    (∀ (st : XBeeState) (pkt : LRPacket) (s : Nat) (log : DispatchLog)
        (pre : List LREvent) (e : LREvent),
      (∀ e' ∈ pre, lrQuiet s e' = true) →
      e.now - s ≥ SEND_DATA_TIMEOUT_MS →
      (XBeeLRSendData st pkt true s log (pre ++ [e])).status = some 0xFF) := by
  constructor
  · intro st pkt s log pre post f tnow hpre hf ht
    simp only [XBeeLRSendData, apiSendFrame, if_pos rfl]
    set st2 : XBeeState :=
      { frameIdCntr := nextFrameId st.frameIdCntr, txStatusReceived := false,
        deliveryStatus := st.deliveryStatus } with hst2
    have hflag : st2.txStatusReceived = false := rfl
    obtain ⟨hskip, hpump_st, hpump_send⟩ :=
      lrWait_skip s pre hpre ({ now := tnow, recv := some f } :: post) st2 log hflag
    rw [hskip]
    have hhandle := apiHandleFrame_txStatus st2 (lrPump st2 log pre).2 f hf
    simp only [lrSendWait, if_neg (by omega : ¬ tnow - s ≥ SEND_DATA_TIMEOUT_MS),
      hhandle]
    refine ⟨rfl, rfl, rfl, ?_⟩
    simp [hpump_send]
  · intro st pkt s log pre e hpre ht
    simp only [XBeeLRSendData, apiSendFrame, if_pos rfl]
    set st2 : XBeeState :=
      { frameIdCntr := nextFrameId st.frameIdCntr, txStatusReceived := false,
        deliveryStatus := st.deliveryStatus } with hst2
    have hflag : st2.txStatusReceived = false := rfl
    obtain ⟨hskip, _, _⟩ := lrWait_skip s pre hpre [e] st2 log hflag
    rw [hskip]
    simp [lrSendWait, ht]

theorem c5_lr_send_waits_for_tx_status_witness :
    ((XBeeLRSendData { frameIdCntr := 1, txStatusReceived := false, deliveryStatus := 0 }
        { port := 2, payload := [0xAA], ack := 1 } true 0 {}
        ([{ now := 5, recv := some { ftype := 0x8A, length := 2, data := [0x8A, 0] } }] ++
          { now := 10, recv := some { ftype := 0x89, length := 3, data := [0x89, 1, 0x21] } }
            :: [])).status = some ([0x89, 1, 0x21].getD 2 0) ∧
      (XBeeLRSendData { frameIdCntr := 1, txStatusReceived := false, deliveryStatus := 0 }
        { port := 2, payload := [0xAA], ack := 1 } true 0 {}
        ([{ now := 5, recv := some { ftype := 0x8A, length := 2, data := [0x8A, 0] } }] ++
          { now := 10, recv := some { ftype := 0x89, length := 3, data := [0x89, 1, 0x21] } }
            :: [])).st.txStatusReceived = true ∧
      (XBeeLRSendData { frameIdCntr := 1, txStatusReceived := false, deliveryStatus := 0 }
        { port := 2, payload := [0xAA], ack := 1 } true 0 {}
        ([{ now := 5, recv := some { ftype := 0x8A, length := 2, data := [0x8A, 0] } }] ++
          { now := 10, recv := some { ftype := 0x89, length := 3, data := [0x89, 1, 0x21] } }
            :: [])).st.deliveryStatus = [0x89, 1, 0x21].getD 2 0 ∧
      (XBeeLRSendData { frameIdCntr := 1, txStatusReceived := false, deliveryStatus := 0 }
        { port := 2, payload := [0xAA], ack := 1 } true 0 {}
        ([{ now := 5, recv := some { ftype := 0x8A, length := 2, data := [0x8A, 0] } }] ++
          { now := 10, recv := some { ftype := 0x89, length := 3, data := [0x89, 1, 0x21] } }
            :: [])).log.onSendCalls = DispatchLog.onSendCalls {} ++
          [{ frameId := [0x89, 1, 0x21].getD 1 0, status := [0x89, 1, 0x21].getD 2 0 }]) ∧
    (XBeeLRSendData { frameIdCntr := 1, txStatusReceived := false, deliveryStatus := 0 }
        { port := 2, payload := [0xAA], ack := 1 } true 0 {}
        ([] ++ [{ now := 10000, recv := none }])).status = some 0xFF :=
  ⟨c5_lr_send_waits_for_tx_status.1
      { frameIdCntr := 1, txStatusReceived := false, deliveryStatus := 0 }
      { port := 2, payload := [0xAA], ack := 1 } 0 {}
      [{ now := 5, recv := some { ftype := 0x8A, length := 2, data := [0x8A, 0] } }] []
      { ftype := 0x89, length := 3, data := [0x89, 1, 0x21] } 10
      (by decide) (by decide) (by decide),
   c5_lr_send_waits_for_tx_status.2
      { frameIdCntr := 1, txStatusReceived := false, deliveryStatus := 0 }
      { port := 2, payload := [0xAA], ack := 1 } 0 {} [] { now := 10000, recv := none }
      (by intro e he; cases he) (by decide)⟩

/-- C10: `apiSendAtCommandAndGetResponse` discards the fire phase's return
value: whenever `apiSendAtCommand` fails, the function still runs the
response wait loop on the unchanged session and its result is exactly the
loop's result; moreover the loop can only return success,
`API_SEND_AT_CMD_ERROR` or the response timeout — never a fire-phase error
code. -/
theorem c10_fire_result_discarded :
    (∀ (st : XBeeState) (command : AtCommand) (parameter : List Nat)
        (bufProvided : Bool) (startTime timeoutMs : Nat) (log : DispatchLog)
        (events : List PollEvent) (err : ApiSendError),
      (apiSendAtCommand st command parameter).result = .error err →
      apiSendAtCommandAndGetResponse st command parameter bufProvided startTime
          timeoutMs log events =
        atResponseWaitLoop startTime timeoutMs bufProvided st log events) ∧
    (∀ (startTime timeoutMs : Nat) (bufProvided : Bool) (st : XBeeState)
        (log : DispatchLog) (events : List PollEvent) (c : Int),
      (atResponseWaitLoop startTime timeoutMs bufProvided st log events).code = some c →
      c = API_SEND_SUCCESS ∨ c = API_SEND_AT_CMD_ERROR ∨
        c = API_SEND_AT_CMD_RESONSE_TIMEOUT) := by
  constructor
  · intro st command parameter bufProvided startTime timeoutMs log events err herr
    simp [apiSendAtCommandAndGetResponse, herr]
  · intro startTime timeoutMs bufProvided st log events
    induction events generalizing st log with
    | nil =>
      intro c hc
      simp [atResponseWaitLoop] at hc
    | cons e rest ih =>
      intro c hc
      rcases he : e.recv with _ | frame
      · simp only [atResponseWaitLoop, he] at hc
        by_cases ht : e.now - startTime ≥ timeoutMs
        · rw [if_pos ht] at hc
          simp at hc
          right; right; omega
        · rw [if_neg ht] at hc
          exact ih _ _ _ hc
      · simp only [atResponseWaitLoop, he] at hc
        by_cases hty : frame.ftype = XBEE_API_TYPE_AT_RESPONSE
        · rw [if_pos hty] at hc
          by_cases hst : frame.data.getD 4 0 = 0
          · rw [if_pos hst] at hc
            simp at hc
            left; omega
          · rw [if_neg hst] at hc
            simp at hc
            right; left; omega
        · rw [if_neg hty] at hc
          by_cases ht : e.now - startTime ≥ timeoutMs
          · rw [if_pos ht] at hc
            simp at hc
            right; right; omega
          · rw [if_neg ht] at hc
            exact ih _ _ _ hc

/-- C1 (counterexample): the wait loop accepts an AT-response frame whose
embedded mnemonic (`data[2..3] = "VR"`) differs from the mnemonic of the
command that was sent (`AT_WR`, "WR", first byte 0x57) and returns success
anyway — the source never compares the mnemonics — refuting the claim that
success requires a matching mnemonic. -/
theorem c1_mnemonic_not_compared_counterexample :
    atCommandToString .AT_WR = some "WR" ∧
    [0x88, 1, 0x56, 0x52, 0].getD 2 0 ≠ 0x57 ∧
    (apiSendAtCommandAndGetResponse
        { frameIdCntr := 1, txStatusReceived := false, deliveryStatus := 0 }
        .AT_WR [] true 0 5000 {}
        [{ recv := some { ftype := 0x88, length := 5, data := [0x88, 1, 0x56, 0x52, 0] },
           now := 0 }]).code = some API_SEND_SUCCESS := by
  decide

/-- C1 (amended): while `apiSendAtCommandAndGetResponse` waits, every
well-formed received frame whose type is not the AT-response type is handed
to the frame dispatcher `apiHandleFrame` and does not end the wait; the wait
ends with success upon the first AT-response frame whose status byte is zero
— of any embedded mnemonic, since the source never compares it with the sent
command — and returns the response-timeout error when the deadline elapses
without an AT-response frame. -/
theorem c1_wait_dispatches_and_resolves :
    (∀ (s tmo : Nat) (buf : Bool) (st : XBeeState) (log : DispatchLog)
        (pre post : List PollEvent) (f : ApiFrame) (tnow : Nat),
      (∀ e ∈ pre, nonTerminatingB s tmo e = true) →
      f.ftype = XBEE_API_TYPE_AT_RESPONSE → f.data.getD 4 0 = 0 →
      (atResponseWaitLoop s tmo buf st log
          (pre ++ { recv := some f, now := tnow } :: post)).code
          = some API_SEND_SUCCESS ∧
      (atResponseWaitLoop s tmo buf st log
          (pre ++ { recv := some f, now := tnow } :: post)).log.dispatched
          = log.dispatched ++ pre.filterMap PollEvent.recv ∧
      (atResponseWaitLoop s tmo buf st log
          (pre ++ { recv := some f, now := tnow } :: post)).consumed
          = pre.length + 1) ∧
    (∀ (s tmo : Nat) (buf : Bool) (st : XBeeState) (log : DispatchLog)
        (pre : List PollEvent) (e : PollEvent),
      (∀ e' ∈ pre, nonTerminatingB s tmo e' = true) →
      (∀ g, e.recv = some g → g.ftype ≠ XBEE_API_TYPE_AT_RESPONSE) →
      e.now - s ≥ tmo →
      (atResponseWaitLoop s tmo buf st log (pre ++ [e])).code =
        some API_SEND_AT_CMD_RESONSE_TIMEOUT) ∧
    (∀ (s tmo : Nat) (buf : Bool) (st : XBeeState) (log : DispatchLog)
        (events : List PollEvent),
      (atResponseWaitLoop s tmo buf st log events).code = some API_SEND_SUCCESS →
      ∃ n e g, events.get? n = some e ∧ e.recv = some g ∧
        g.ftype = XBEE_API_TYPE_AT_RESPONSE ∧ g.data.getD 4 0 = 0) := by
  refine ⟨?_, ?_, ?_⟩
  · intro s tmo buf st log pre post f tnow hpre hf h0
    rw [atWait_append s tmo buf pre hpre]
    have h0' : f.data[4]?.getD 0 = 0 := by simpa using h0
    refine ⟨?_, ?_, ?_⟩ <;>
      simp [atResponseWaitLoop, hf, h0', pumpFrames_dispatched pre st log]
  · intro s tmo buf st log pre e hpre hne ht
    rw [atWait_append s tmo buf pre hpre]
    cases he : e.recv with
    | none => simp [atResponseWaitLoop, he, ht]
    | some g => simp [atResponseWaitLoop, he, hne g he, ht]
  · intro s tmo buf st log events
    induction events generalizing st log with
    | nil =>
      intro hc
      simp [atResponseWaitLoop] at hc
    | cons e rest ih =>
      intro hc
      rcases he : e.recv with _ | g
      · simp only [atResponseWaitLoop, he] at hc
        by_cases ht : e.now - s ≥ tmo
        · rw [if_pos ht] at hc
          simp [API_SEND_AT_CMD_RESONSE_TIMEOUT, API_SEND_SUCCESS] at hc
        · rw [if_neg ht] at hc
          obtain ⟨n, e', g', hn, hrecv, hty, hzero⟩ := ih _ _ hc
          exact ⟨n + 1, e', g', hn, hrecv, hty, hzero⟩
      · simp only [atResponseWaitLoop, he] at hc
        by_cases hty : g.ftype = XBEE_API_TYPE_AT_RESPONSE
        · rw [if_pos hty] at hc
          by_cases h0 : g.data.getD 4 0 = 0
          · exact ⟨0, e, g, rfl, he, hty, h0⟩
          · rw [if_neg h0] at hc
            simp [API_SEND_AT_CMD_ERROR, API_SEND_SUCCESS] at hc
        · rw [if_neg hty] at hc
          by_cases ht : e.now - s ≥ tmo
          · rw [if_pos ht] at hc
            simp [API_SEND_AT_CMD_RESONSE_TIMEOUT, API_SEND_SUCCESS] at hc
          · rw [if_neg ht] at hc
            obtain ⟨n, e', g', hn, hrecv, hty', hzero⟩ := ih _ _ hc
            exact ⟨n + 1, e', g', hn, hrecv, hty', hzero⟩

theorem c1_wait_dispatches_and_resolves_witness :
    ((atResponseWaitLoop 0 5000 true
        { frameIdCntr := 1, txStatusReceived := false, deliveryStatus := 0 } {}
        ([{ recv := some { ftype := 0x8A, length := 2, data := [0x8A, 0] }, now := 10 }] ++
          { recv := some { ftype := 0x88, length := 5, data := [0x88, 1, 0x57, 0x52, 0] },
            now := 20 } :: [])).code = some API_SEND_SUCCESS ∧
      (atResponseWaitLoop 0 5000 true
        { frameIdCntr := 1, txStatusReceived := false, deliveryStatus := 0 } {}
        ([{ recv := some { ftype := 0x8A, length := 2, data := [0x8A, 0] }, now := 10 }] ++
          { recv := some { ftype := 0x88, length := 5, data := [0x88, 1, 0x57, 0x52, 0] },
            now := 20 } :: [])).log.dispatched =
        DispatchLog.dispatched {} ++
          [{ recv := some { ftype := 0x8A, length := 2, data := [0x8A, 0] },
             now := 10 }].filterMap PollEvent.recv ∧
      (atResponseWaitLoop 0 5000 true
        { frameIdCntr := 1, txStatusReceived := false, deliveryStatus := 0 } {}
        ([{ recv := some { ftype := 0x8A, length := 2, data := [0x8A, 0] }, now := 10 }] ++
          { recv := some { ftype := 0x88, length := 5, data := [0x88, 1, 0x57, 0x52, 0] },
            now := 20 } :: [])).consumed = 1 + 1) ∧
    (atResponseWaitLoop 0 100 true
        { frameIdCntr := 1, txStatusReceived := false, deliveryStatus := 0 } {}
        ([] ++ [{ recv := none, now := 100 }])).code =
      some API_SEND_AT_CMD_RESONSE_TIMEOUT :=
  ⟨c1_wait_dispatches_and_resolves.1 0 5000 true
      { frameIdCntr := 1, txStatusReceived := false, deliveryStatus := 0 } {}
      [{ recv := some { ftype := 0x8A, length := 2, data := [0x8A, 0] }, now := 10 }] []
      { ftype := 0x88, length := 5, data := [0x88, 1, 0x57, 0x52, 0] } 20
      (by decide) (by decide) (by decide),
   c1_wait_dispatches_and_resolves.2.1 0 100 true
      { frameIdCntr := 1, txStatusReceived := false, deliveryStatus := 0 } {}
      [] { recv := none, now := 100 }
      (by decide) (by intro g hg; cases hg) (by decide)⟩

/-- C6: when the wait of `apiSendAtCommandAndGetResponse` receives an
AT-response frame whose status byte `data[4]` is nonzero, it returns
`API_SEND_AT_CMD_ERROR` immediately — consuming no further events — and
copies nothing into the caller's response buffer; moreover any copy at all
happens only for an AT-response frame whose status byte is zero. -/
theorem c6_nonzero_status_error_no_copy :
    (∀ (s tmo : Nat) (buf : Bool) (st : XBeeState) (log : DispatchLog)
        (pre post : List PollEvent) (f : ApiFrame) (tnow : Nat),
      (∀ e ∈ pre, nonTerminatingB s tmo e = true) →
      f.ftype = XBEE_API_TYPE_AT_RESPONSE → f.data.getD 4 0 ≠ 0 →
      (atResponseWaitLoop s tmo buf st log
          (pre ++ { recv := some f, now := tnow } :: post)).code
          = some API_SEND_AT_CMD_ERROR ∧
      (atResponseWaitLoop s tmo buf st log
          (pre ++ { recv := some f, now := tnow } :: post)).copied = none ∧
      (atResponseWaitLoop s tmo buf st log
          (pre ++ { recv := some f, now := tnow } :: post)).consumed
          = pre.length + 1) ∧
    (∀ (s tmo : Nat) (buf : Bool) (st : XBeeState) (log : DispatchLog)
        (events : List PollEvent) (d : List Nat),
      (atResponseWaitLoop s tmo buf st log events).copied = some d →
      ∃ n e g, events.get? n = some e ∧ e.recv = some g ∧
        g.ftype = XBEE_API_TYPE_AT_RESPONSE ∧ g.data.getD 4 0 = 0) := by
  constructor
  · intro s tmo buf st log pre post f tnow hpre hf hnz
    rw [atWait_append s tmo buf pre hpre]
    have hnz' : ¬ f.data[4]?.getD 0 = 0 := by simpa using hnz
    refine ⟨?_, ?_, ?_⟩ <;> simp [atResponseWaitLoop, hf, hnz']
  · intro s tmo buf st log events
    induction events generalizing st log with
    | nil =>
      intro d hc
      simp [atResponseWaitLoop] at hc
    | cons e rest ih =>
      intro d hc
      rcases he : e.recv with _ | g
      · simp only [atResponseWaitLoop, he] at hc
        by_cases ht : e.now - s ≥ tmo
        · rw [if_pos ht] at hc
          simp at hc
        · rw [if_neg ht] at hc
          obtain ⟨n, e', g', hn, hrecv, hty, hzero⟩ := ih _ _ _ hc
          exact ⟨n + 1, e', g', hn, hrecv, hty, hzero⟩
      · simp only [atResponseWaitLoop, he] at hc
        by_cases hty : g.ftype = XBEE_API_TYPE_AT_RESPONSE
        · rw [if_pos hty] at hc
          by_cases h0 : g.data.getD 4 0 = 0
          · exact ⟨0, e, g, rfl, he, hty, h0⟩
          · rw [if_neg h0] at hc
            simp at hc
        · rw [if_neg hty] at hc
          by_cases ht : e.now - s ≥ tmo
          · rw [if_pos ht] at hc
            simp at hc
          · rw [if_neg ht] at hc
            obtain ⟨n, e', g', hn, hrecv, hty', hzero⟩ := ih _ _ _ hc
            exact ⟨n + 1, e', g', hn, hrecv, hty', hzero⟩

theorem c6_nonzero_status_error_no_copy_witness :
    (atResponseWaitLoop 0 5000 true
        { frameIdCntr := 1, txStatusReceived := false, deliveryStatus := 0 } {}
        ([] ++ { recv := some { ftype := 0x88, length := 6, data := [0x88, 1, 0x57, 0x52, 3, 9] },
                 now := 0 } :: [{ recv := none, now := 1 }])).code
        = some API_SEND_AT_CMD_ERROR ∧
    (atResponseWaitLoop 0 5000 true
        { frameIdCntr := 1, txStatusReceived := false, deliveryStatus := 0 } {}
        ([] ++ { recv := some { ftype := 0x88, length := 6, data := [0x88, 1, 0x57, 0x52, 3, 9] },
                 now := 0 } :: [{ recv := none, now := 1 }])).copied = none ∧
    (atResponseWaitLoop 0 5000 true
        { frameIdCntr := 1, txStatusReceived := false, deliveryStatus := 0 } {}
        ([] ++ { recv := some { ftype := 0x88, length := 6, data := [0x88, 1, 0x57, 0x52, 3, 9] },
                 now := 0 } :: [{ recv := none, now := 1 }])).consumed = 0 + 1 :=
  c6_nonzero_status_error_no_copy.1 0 5000 true
    { frameIdCntr := 1, txStatusReceived := false, deliveryStatus := 0 } {}
    [] [{ recv := none, now := 1 }]
    { ftype := 0x88, length := 6, data := [0x88, 1, 0x57, 0x52, 3, 9] } 0
    (by intro e he; cases he) (by decide) (by decide)

theorem c10_fire_result_discarded_witness :
    ((apiSendAtCommand { frameIdCntr := 1, txStatusReceived := false, deliveryStatus := 0 }
        .AT_WR (List.replicate 129 7)).result = .error .frameTooLarge ∧
      apiSendAtCommandAndGetResponse
          { frameIdCntr := 1, txStatusReceived := false, deliveryStatus := 0 }
          .AT_WR (List.replicate 129 7) true 0 100 {} [{ recv := none, now := 500 }] =
        atResponseWaitLoop 0 100 true
          { frameIdCntr := 1, txStatusReceived := false, deliveryStatus := 0 } {}
          [{ recv := none, now := 500 }]) ∧
    ((-6 : Int) = API_SEND_SUCCESS ∨ (-6 : Int) = API_SEND_AT_CMD_ERROR ∨
      (-6 : Int) = API_SEND_AT_CMD_RESONSE_TIMEOUT) :=
  ⟨⟨by simp [apiSendAtCommand], c10_fire_result_discarded.1 _ .AT_WR _ true 0 100 {} _
      .frameTooLarge (by simp [apiSendAtCommand])⟩,
   c10_fire_result_discarded.2 0 100 true
     { frameIdCntr := 1, txStatusReceived := false, deliveryStatus := 0 } {}
     [{ recv := none, now := 500 }] (-6) (by decide)⟩

end XBeeArduino
